import Mathlib

/-!
Verification of the consensus classification workflow in `src/classifier.py`
(repository `ragclassifier`), against its natural-language specification.

The embedding follows the source code:
* from `src/models.py`: `ClassificationLabel`, `AgentVote`, `ReconciliationGuidance`,
  `SupervisorDecision` (pydantic models; field constraints become `valid` predicates);
* from `src/config.py`: `AgentModelConfig`, `ConsensusConfig`, `AppConfig`,
  and the `max(1, ...)` clamp applied to `CONSENSUS_MAX_ROUNDS` in
  `load_default_config`;
* from `src/classifier.py`: `DocumentClassifier` with the `_evaluate_votes` node,
  the `_route_after_evaluation` conditional edge, and the langgraph round loop
  `run_agents → evaluate → (reconcile → run_agents | finalize)`.

Python floats are modelled as rationals (`ℚ`); Python ints as `ℤ`.  The external
LLM-backed capabilities (`classify_with_agent`, `build_reconciliation_guidance`,
`finalize_with_supervisor` in `src/agents.py`) are black boxes per the spec; they
are modelled as oracle parameters, fallible (`Except`) where error propagation is
at issue.  The repository's own deterministic offline finalization capability
(`_make_decision` in `tests/test_classifier.py`) is embedded as `make_decision`
and used where a concrete finalization capability is needed.
-/

namespace RagClassifier

/-- Embedding of `ClassificationLabel` from `src/models.py`. -/
inductive ClassificationLabel where
  | RESTRICTED
  | CONFIDENTIAL
  | PUBLIC
  deriving DecidableEq, Repr

/-- Embedding of `AgentVote` from `src/models.py`.  Pydantic constraints
(`confidence` in [0,1], `reason` non-empty) are the `valid` predicate below. -/
structure AgentVote where
  classification : ClassificationLabel
  confidence : ℚ
  reason : String
  matched_rubric_points : List String
  deriving DecidableEq, Repr

/-- Schema validity of an `AgentVote` per the pydantic field constraints:
`confidence: float = Field(ge=0.0, le=1.0)`, `reason: str = Field(min_length=1)`. -/
def AgentVote.valid (v : AgentVote) : Prop :=
  0 ≤ v.confidence ∧ v.confidence ≤ 1 ∧ 1 ≤ v.reason.length

instance (v : AgentVote) : Decidable v.valid := by
  unfold AgentVote.valid; infer_instance

/-- Embedding of `ReconciliationGuidance` from `src/models.py`. -/
structure ReconciliationGuidance where
  instructions_for_retry : String
  deriving DecidableEq, Repr

/-- Embedding of `SupervisorDecision` from `src/models.py`. -/
structure SupervisorDecision where
  document_id : String
  document_name : String
  classification : ClassificationLabel
  confidence : ℚ
  reason : String
  matched_rubric_points : List String
  agent_a_vote : AgentVote
  agent_b_vote : AgentVote
  consensus_reached : Bool
  consensus_score : ℚ
  rounds_used : ℤ
  deriving DecidableEq, Repr

/-- Embedding of `AgentModelConfig` from `src/config.py`. -/
structure AgentModelConfig where
  name : String
  model : String
  base_url : String
  api_key : String
  temperature : ℚ
  timeout_s : ℚ
  deriving DecidableEq, Repr

/-- Embedding of `ConsensusConfig` from `src/config.py` (a plain dataclass: the
declaration itself imposes no range constraints on either field). -/
structure ConsensusConfig where
  min_confidence : ℚ
  max_rounds : ℤ
  deriving DecidableEq, Repr

/-- Embedding of `AppConfig` from `src/config.py`. -/
structure AppConfig where
  supervisor : AgentModelConfig
  agent_a : AgentModelConfig
  agent_b : AgentModelConfig
  consensus : ConsensusConfig
  deriving DecidableEq, Repr

/-- The clamp `max_rounds=max(1, _env_int("CONSENSUS_MAX_ROUNDS", 3))` applied in
`load_default_config` (`src/config.py`) to the raw environment value. -/
def load_max_rounds (raw : ℤ) : ℤ := max 1 raw

/-- The update computed by the `_evaluate_votes` node of `DocumentClassifier`
(`src/classifier.py`): the three state channels it writes, plus the
intermediate `labels_match` it computes. -/
structure EvalUpdate where
  labels_match : Bool
  consensus_score : ℚ
  consensus_reached : Bool
  should_finalize : Bool
  deriving DecidableEq, Repr

/-- Embedding of `DocumentClassifier._evaluate_votes` (`src/classifier.py`):
`labels_match = (a.classification == b.classification)`,
`consensus_score = (a.confidence + b.confidence) / 2.0`,
`consensus_reached = labels_match and consensus_score >= min_confidence`,
`should_finalize = consensus_reached or round_num >= max_rounds`. -/
def evaluate_votes (cfg : ConsensusConfig) (a b : AgentVote) (round_num : ℤ) :
    EvalUpdate :=
  let labels_match : Bool := decide (a.classification = b.classification)
  let consensus_score : ℚ := (a.confidence + b.confidence) / 2
  let consensus_reached : Bool :=
    labels_match && decide (cfg.min_confidence ≤ consensus_score)
  { labels_match := labels_match
    consensus_score := consensus_score
    consensus_reached := consensus_reached
    should_finalize := consensus_reached || decide (cfg.max_rounds ≤ round_num) }

/-- The langgraph state channels (`GraphState` in `src/classifier.py`) read and
written around the `evaluate` node.  The two votes are present whenever
`evaluate` runs (they are written by `run_agents`, which always precedes it). -/
structure GraphState where
  document_id : String
  document_name : String
  document_text : String
  round_num : ℤ
  retry_context : Option String
  agent_a_vote : AgentVote
  agent_b_vote : AgentVote
  consensus_reached : Bool
  consensus_score : ℚ
  should_finalize : Bool
  deriving DecidableEq, Repr

/-- The `evaluate` node as a state transformer: `_evaluate_votes` returns a
partial update `{consensus_reached, consensus_score, should_finalize}` which
langgraph merges into the state, overwriting those three channels. -/
def apply_evaluate (cfg : ConsensusConfig) (s : GraphState) : GraphState :=
  let ev := evaluate_votes cfg s.agent_a_vote s.agent_b_vote s.round_num
  { s with
    consensus_reached := ev.consensus_reached
    consensus_score := ev.consensus_score
    should_finalize := ev.should_finalize }

/-- Embedding of `DocumentClassifier._route_after_evaluation`
(`src/classifier.py`):
`return "finalize" if state.get("should_finalize") else "reconcile"`. -/
def route_after_evaluation (s : GraphState) : String :=
  if s.should_finalize then "finalize" else "reconcile"

/-- The data a finished run carries into `_finalize`, together with
instrumentation: `recon_count` counts invocations of the reconciliation
capability, and `trace` records, for each executed round in order, the pair
`(round_num, retry_context)` its two evaluation calls received. -/
structure RunResult where
  rounds_used : ℤ
  consensus_reached : Bool
  consensus_score : ℚ
  vote_a : AgentVote
  vote_b : AgentVote
  recon_count : ℕ
  trace : List (ℤ × Option String)
  deriving DecidableEq, Repr

/-- The data carried out of the loop when the `finalize` route is taken: the
terminal round's number, votes and consensus evaluation, with instrumentation
(`recon_count := 0`, singleton `trace`) for the final round. -/
def finish_round (round_num : ℤ) (retry_context : Option String)
    (va vb : AgentVote) (ev : EvalUpdate) : RunResult :=
  { rounds_used := round_num
    consensus_reached := ev.consensus_reached
    consensus_score := ev.consensus_score
    vote_a := va
    vote_b := vb
    recon_count := 0
    trace := [(round_num, retry_context)] }

/-- The round loop of the compiled graph (`_build_graph` in `src/classifier.py`):
`run_agents → evaluate → (finalize | reconcile → run_agents)`.  Each iteration:
`_run_agents` queries both evaluation capabilities (`voteA`, `voteB`) with the
current round number and retry context, `_evaluate_votes` computes the update,
and `_route_after_evaluation` either stops (`should_finalize`) or runs
`_reconcile`, which obtains guidance and sets
`round_num := round_num + 1, retry_context := guidance.instructions_for_retry`.

The loop is structurally recursive on a fuel argument.  Fuel
`(max_rounds - round_num).toNat` is exact: fuel reaches `0` only when
`max_rounds ≤ round_num`, and then `should_finalize` is true, so the
fuel-exhaustion branch coincides with the route the code takes
(`should_finalize_of_budget_zero` below). -/
def run_rounds (cfg : ConsensusConfig) (voteA voteB : ℤ → Option String → AgentVote)
    (guide : ℤ → AgentVote → AgentVote → ReconciliationGuidance) :
    ℕ → ℤ → Option String → RunResult
  | 0, round_num, retry_context =>
    let va := voteA round_num retry_context
    let vb := voteB round_num retry_context
    finish_round round_num retry_context va vb (evaluate_votes cfg va vb round_num)
  | fuel + 1, round_num, retry_context =>
    let va := voteA round_num retry_context
    let vb := voteB round_num retry_context
    let ev := evaluate_votes cfg va vb round_num
    if ev.should_finalize then
      finish_round round_num retry_context va vb ev
    else
      let g := guide round_num va vb
      let rest := run_rounds cfg voteA voteB guide fuel (round_num + 1)
        (some g.instructions_for_retry)
      { rest with
        recon_count := rest.recon_count + 1
        trace := (round_num, retry_context) :: rest.trace }

/-- The workflow loop started at a given round with the exact fuel
`(max_rounds - round_num).toNat`. -/
def run_workflow (cfg : ConsensusConfig) (voteA voteB : ℤ → Option String → AgentVote)
    (guide : ℤ → AgentVote → AgentVote → ReconciliationGuidance)
    (round_num : ℤ) (retry_context : Option String) : RunResult :=
  run_rounds cfg voteA voteB guide (cfg.max_rounds - round_num).toNat round_num retry_context

/-- Embedding of `DocumentClassifier.classify_document` (`src/classifier.py`):
invoke the graph from the initial state `{round_num := 1, no retry_context}` and
hand the terminal metadata to the arbitration capability `finalizeD`
(`finalize_with_supervisor` receives `document_id, document_name, rounds_used,
consensus_reached, consensus_score, agent_a_vote, agent_b_vote`). -/
def classify_document (cfg : ConsensusConfig)
    (voteA voteB : ℤ → Option String → AgentVote)
    (guide : ℤ → AgentVote → AgentVote → ReconciliationGuidance)
    (finalizeD : String → String → ℤ → Bool → ℚ → AgentVote → AgentVote → SupervisorDecision)
    (document_id document_name : String) : SupervisorDecision :=
  let r := run_workflow cfg voteA voteB guide 1 none
  finalizeD document_id document_name r.rounds_used r.consensus_reached
    r.consensus_score r.vote_a r.vote_b

/-- The repository's deterministic offline finalization capability,
`_make_decision` in `tests/test_classifier.py`: agreed label with the larger
confidence when the votes agree, otherwise the higher-confidence vote
(ties broken toward agent A). -/
def make_decision (document_id document_name : String) (rounds_used : ℤ)
    (consensus_reached : Bool) (consensus_score : ℚ)
    (agent_a_vote agent_b_vote : AgentVote) : SupervisorDecision :=
  let pick : ClassificationLabel × ℚ :=
    if agent_a_vote.classification = agent_b_vote.classification then
      (agent_a_vote.classification, max agent_a_vote.confidence agent_b_vote.confidence)
    else if agent_b_vote.confidence ≤ agent_a_vote.confidence then
      (agent_a_vote.classification, agent_a_vote.confidence)
    else
      (agent_b_vote.classification, agent_b_vote.confidence)
  { document_id := document_id
    document_name := document_name
    classification := pick.1
    confidence := pick.2
    reason := "Offline test finalization."
    matched_rubric_points := ["offline test"]
    agent_a_vote := agent_a_vote
    agent_b_vote := agent_b_vote
    consensus_reached := consensus_reached
    consensus_score := consensus_score
    rounds_used := rounds_used }

/-- The round loop with fallible capabilities.  In `_run_agents` the code
retrieves `agent_a_future.result()` before `agent_b_future.result()`, so agent
A's exception propagates first; a raised exception aborts the graph run
(no retry, no state update).  The same fuel discipline as `run_rounds`. -/
def run_roundsE {ε : Type} (cfg : ConsensusConfig)
    (voteA voteB : ℤ → Option String → Except ε AgentVote)
    (guide : ℤ → AgentVote → AgentVote → Except ε ReconciliationGuidance) :
    ℕ → ℤ → Option String → Except ε RunResult
  | 0, round_num, retry_context =>
    match voteA round_num retry_context with
    | .error e => .error e
    | .ok va =>
      match voteB round_num retry_context with
      | .error e => .error e
      | .ok vb =>
        .ok (finish_round round_num retry_context va vb (evaluate_votes cfg va vb round_num))
  | fuel + 1, round_num, retry_context =>
    match voteA round_num retry_context with
    | .error e => .error e
    | .ok va =>
      match voteB round_num retry_context with
      | .error e => .error e
      | .ok vb =>
        let ev := evaluate_votes cfg va vb round_num
        if ev.should_finalize then
          .ok (finish_round round_num retry_context va vb ev)
        else
          match guide round_num va vb with
          | .error e => .error e
          | .ok g =>
            match run_roundsE cfg voteA voteB guide fuel (round_num + 1)
              (some g.instructions_for_retry) with
            | .error e => .error e
            | .ok rest =>
              .ok { rest with
                    recon_count := rest.recon_count + 1
                    trace := (round_num, retry_context) :: rest.trace }

/-- The fallible workflow loop with exact fuel. -/
def run_workflowE {ε : Type} (cfg : ConsensusConfig)
    (voteA voteB : ℤ → Option String → Except ε AgentVote)
    (guide : ℤ → AgentVote → AgentVote → Except ε ReconciliationGuidance)
    (round_num : ℤ) (retry_context : Option String) : Except ε RunResult :=
  run_roundsE cfg voteA voteB guide (cfg.max_rounds - round_num).toNat round_num retry_context

/-- Embedding of `classify_document` when capability calls may fail: any
exception raised by an evaluation, reconciliation, or arbitration call
propagates to the caller. -/
def classify_documentE {ε : Type} (cfg : ConsensusConfig)
    (voteA voteB : ℤ → Option String → Except ε AgentVote)
    (guide : ℤ → AgentVote → AgentVote → Except ε ReconciliationGuidance)
    (finalizeD : String → String → ℤ → Bool → ℚ → AgentVote → AgentVote →
      Except ε SupervisorDecision)
    (document_id document_name : String) : Except ε SupervisorDecision :=
  match run_workflowE cfg voteA voteB guide 1 none with
  | .error e => .error e
  | .ok r =>
    finalizeD document_id document_name r.rounds_used r.consensus_reached
      r.consensus_score r.vote_a r.vote_b

/-- Instance data of `DocumentClassifier`: `__init__` stores the config (and
builds chat-model handles, which are external plumbing). -/
structure DocumentClassifier where
  config : AppConfig
  deriving DecidableEq, Repr

/-- The error type the spec's ConfigurationError would inhabit. -/
inductive ConfigError where
  | invalid_min_confidence
  | invalid_max_rounds
  deriving DecidableEq, Repr

/-- Embedding of `DocumentClassifier.__init__` (`src/classifier.py` lines
32–37): it assigns `self.config`, builds the three chat models, and compiles
the graph.  It contains no range check on `config.consensus`: no configuration
value makes it raise, so as a fallible constructor it is total and always
succeeds. -/
def mkDocumentClassifier (config : AppConfig) : Except ConfigError DocumentClassifier :=
  .ok { config := config }

/-- The relation between the `(round_num, retry_context)` inputs of two
consecutive executed rounds: the round number advances by one, and the new
retry context is exactly the guidance the reconciliation capability produced
from the earlier round's number and votes. -/
def guidance_step (A B : ℤ → Option String → AgentVote)
    (G : ℤ → AgentVote → AgentVote → ReconciliationGuidance) :
    ℤ × Option String → ℤ × Option String → Prop := fun p q =>
  q.1 = p.1 + 1 ∧
    q.2 = some ((G p.1 (A p.1 p.2) (B p.1 p.2)).instructions_for_retry)

/-- A concrete valid vote, used by witnesses. -/
def vote_w1 : AgentVote :=
  { classification := .CONFIDENTIAL
    confidence := 1
    reason := "Sensitive internal content."
    matched_rubric_points := [] }

/-- Second concrete valid vote for witnesses. -/
def vote_w2 : AgentVote :=
  { classification := .CONFIDENTIAL
    confidence := 1
    reason := "Independent agreement."
    matched_rubric_points := ["rubric"] }

/-- A concrete configuration (`min_confidence = 1`, `max_rounds = 3`). -/
def cfg_w : ConsensusConfig := { min_confidence := 1, max_rounds := 3 }

/-- A stub model configuration, mirroring the dummy configs the repository's
tests construct. -/
def model_stub : AgentModelConfig :=
  { name := "supervisor"
    model := "dummy-supervisor"
    base_url := "http://dummy"
    api_key := "dummy"
    temperature := 0
    timeout_s := 60 }

/-- An application config whose consensus settings violate both documented
ranges: `min_confidence = 0 ∉ [0.5, 1.0]` and `max_rounds = 0 < 1`. -/
def invalid_config : AppConfig :=
  { supervisor := model_stub
    agent_a := model_stub
    agent_b := model_stub
    consensus := { min_confidence := 0, max_rounds := 0 } }

/-- A concrete RESTRICTED vote disagreeing with `vote_w4`. -/
def vote_w3 : AgentVote :=
  { classification := .RESTRICTED
    confidence := 0
    reason := "Contains potential account artifacts."
    matched_rubric_points := ["account data"] }

/-- A concrete PUBLIC vote disagreeing with `vote_w3`. -/
def vote_w4 : AgentVote :=
  { classification := .PUBLIC
    confidence := 0
    reason := "Appears broad and generic."
    matched_rubric_points := ["public website content"] }

/-- Constant evaluation oracle returning `vote_w3`. -/
def voteA_w : ℤ → Option String → AgentVote := fun _ _ => vote_w3

/-- Constant evaluation oracle returning `vote_w4`. -/
def voteB_w : ℤ → Option String → AgentVote := fun _ _ => vote_w4

/-- Constant reconciliation oracle. -/
def guide_w : ℤ → AgentVote → AgentVote → ReconciliationGuidance :=
  fun _ _ _ => { instructions_for_retry := "Re-check data sensitivity." }

/-- A configuration with `min_confidence = 1` and `max_rounds = 2`. -/
def cfg_w2 : ConsensusConfig := { min_confidence := 1, max_rounds := 2 }

/-- Concrete graph state holding the disagreeing votes at round 1. -/
def state_w1 : GraphState :=
  { document_id := "doc-1"
    document_name := "doc.txt"
    document_text := "Mixed content"
    round_num := 1
    retry_context := none
    agent_a_vote := vote_w3
    agent_b_vote := vote_w4
    consensus_reached := false
    consensus_score := 0
    should_finalize := false }

/-- Variant of `state_w1` at a different round with different bookkeeping
channels but the same votes. -/
def state_w2 : GraphState :=
  { state_w1 with round_num := 2, retry_context := some "Re-check data sensitivity." }

/-- Failing agent-A oracle over `ε := String`. -/
def voteA_failE : ℤ → Option String → Except String AgentVote :=
  fun _ _ => .error "agent A failed"

/-- Failing agent-B oracle. -/
def voteB_failE : ℤ → Option String → Except String AgentVote :=
  fun _ _ => .error "agent B failed"

/-- Succeeding agent-A oracle. -/
def voteA_okE : ℤ → Option String → Except String AgentVote :=
  fun r c => .ok (voteA_w r c)

/-- Succeeding agent-B oracle. -/
def voteB_okE : ℤ → Option String → Except String AgentVote :=
  fun r c => .ok (voteB_w r c)

/-- Failing reconciliation oracle. -/
def guide_failE : ℤ → AgentVote → AgentVote → Except String ReconciliationGuidance :=
  fun _ _ _ => .error "reconciliation failed"

/-- Succeeding reconciliation oracle. -/
def guide_okE : ℤ → AgentVote → AgentVote → Except String ReconciliationGuidance :=
  fun r a b => .ok (guide_w r a b)

/-- Failing arbitration oracle. -/
def finalize_failE :
    String → String → ℤ → Bool → ℚ → AgentVote → AgentVote → Except String SupervisorDecision :=
  fun _ _ _ _ _ _ _ => .error "arbitration failed"

/-- Succeeding arbitration oracle delegating to `make_decision`. -/
def finalize_okE :
    String → String → ℤ → Bool → ℚ → AgentVote → AgentVote → Except String SupervisorDecision :=
  fun i n ru cr cs va vb => .ok (make_decision i n ru cr cs va vb)

/-- With the exact fuel, fuel `0` implies `max_rounds ≤ round_num`, which forces
the finalize route: the fuel-exhaustion branch agrees with the code. -/
theorem should_finalize_of_budget_zero (cfg : ConsensusConfig) (a b : AgentVote)
    (round_num : ℤ) (h : (cfg.max_rounds - round_num).toNat = 0) :
    (evaluate_votes cfg a b round_num).should_finalize = true := by
  have hle : cfg.max_rounds ≤ round_num := by omega
  simp [evaluate_votes, hle]

/-- In `_evaluate_votes`, `should_finalize` is exactly
`consensus_reached or round_num >= max_rounds`. -/
theorem should_finalize_iff (cfg : ConsensusConfig) (a b : AgentVote) (round_num : ℤ) :
    (evaluate_votes cfg a b round_num).should_finalize
      = ((evaluate_votes cfg a b round_num).consensus_reached
          || decide (cfg.max_rounds ≤ round_num)) := rfl

/-- Each executed round past the first is preceded by exactly one reconciliation:
the terminal round number equals the starting round plus the reconciliation
count. -/
theorem run_rounds_rounds_used (cfg : ConsensusConfig) (A B : ℤ → Option String → AgentVote)
    (G : ℤ → AgentVote → AgentVote → ReconciliationGuidance) :
    ∀ (fuel : ℕ) (round_num : ℤ) (retry : Option String),
      (run_rounds cfg A B G fuel round_num retry).rounds_used
        = round_num + (run_rounds cfg A B G fuel round_num retry).recon_count := by
  intro fuel
  induction fuel with
  | zero =>
    intro round_num retry
    simp [run_rounds, finish_round]
  | succ fuel ih =>
    intro round_num retry
    simp only [run_rounds]
    cases hf : (evaluate_votes cfg (A round_num retry) (B round_num retry) round_num).should_finalize
    · simp only [hf, Bool.false_eq_true, if_false]
      have := ih (round_num + 1)
        (some (G round_num (A round_num retry) (B round_num retry)).instructions_for_retry)
      push_cast
      push_cast at this
      omega
    · simp [hf, finish_round]

/-- The loop never runs past the round budget: if it starts at a round within the
budget, the terminal round is at most `max_rounds`. -/
theorem run_rounds_le_max (cfg : ConsensusConfig) (A B : ℤ → Option String → AgentVote)
    (G : ℤ → AgentVote → AgentVote → ReconciliationGuidance) :
    ∀ (fuel : ℕ) (round_num : ℤ) (retry : Option String),
      round_num ≤ cfg.max_rounds →
      (run_rounds cfg A B G fuel round_num retry).rounds_used ≤ cfg.max_rounds := by
  intro fuel
  induction fuel with
  | zero =>
    intro round_num retry h
    simpa [run_rounds, finish_round] using h
  | succ fuel ih =>
    intro round_num retry h
    simp only [run_rounds]
    cases hf : (evaluate_votes cfg (A round_num retry) (B round_num retry) round_num).should_finalize
    · simp only [hf, Bool.false_eq_true, if_false]
      have hlt : ¬ (cfg.max_rounds ≤ round_num) := by
        intro hle
        simp [evaluate_votes, hle] at hf
      exact ih (round_num + 1) _ (by omega)
    · simpa [hf, finish_round] using h

/-- When the loop ends without consensus, it ended because the budget was hit:
the terminal round is at least `max_rounds` (given sufficient fuel). -/
theorem run_rounds_ge_max_of_not_reached (cfg : ConsensusConfig)
    (A B : ℤ → Option String → AgentVote)
    (G : ℤ → AgentVote → AgentVote → ReconciliationGuidance) :
    ∀ (fuel : ℕ) (round_num : ℤ) (retry : Option String),
      (cfg.max_rounds - round_num).toNat ≤ fuel →
      (run_rounds cfg A B G fuel round_num retry).consensus_reached = false →
      cfg.max_rounds ≤ (run_rounds cfg A B G fuel round_num retry).rounds_used := by
  intro fuel
  induction fuel with
  | zero =>
    intro round_num retry hfuel _
    simp only [run_rounds, finish_round]
    omega
  | succ fuel ih =>
    intro round_num retry hfuel hcr
    simp only [run_rounds] at hcr ⊢
    cases hf : (evaluate_votes cfg (A round_num retry) (B round_num retry) round_num).should_finalize
    · simp only [hf, Bool.false_eq_true, if_false] at hcr ⊢
      have hlt : ¬ (cfg.max_rounds ≤ round_num) := by
        intro hle
        simp [evaluate_votes, hle] at hf
      exact ih (round_num + 1) _ (by omega) hcr
    · simp only [hf, if_true, finish_round] at hcr ⊢
      rw [should_finalize_iff, hcr] at hf
      simpa using hf

/-- The first entry of the trace is the loop's own starting round and retry
context. -/
theorem run_rounds_trace_head (cfg : ConsensusConfig) (A B : ℤ → Option String → AgentVote)
    (G : ℤ → AgentVote → AgentVote → ReconciliationGuidance)
    (fuel : ℕ) (round_num : ℤ) (retry : Option String) :
    (run_rounds cfg A B G fuel round_num retry).trace.head? = some (round_num, retry) := by
  cases fuel with
  | zero => simp [run_rounds, finish_round]
  | succ fuel =>
    simp only [run_rounds]
    cases hf : (evaluate_votes cfg (A round_num retry) (B round_num retry) round_num).should_finalize <;>
      simp [hf, finish_round]

/-- Consecutive executed rounds are linked by `guidance_step`: the retry context
of each round is the reconciliation output of the immediately preceding round. -/
theorem run_rounds_trace_chain (cfg : ConsensusConfig) (A B : ℤ → Option String → AgentVote)
    (G : ℤ → AgentVote → AgentVote → ReconciliationGuidance) :
    ∀ (fuel : ℕ) (round_num : ℤ) (retry : Option String),
      List.Chain' (guidance_step A B G) (run_rounds cfg A B G fuel round_num retry).trace := by
  intro fuel
  induction fuel with
  | zero =>
    intro round_num retry
    simp [run_rounds, finish_round]
  | succ fuel ih =>
    intro round_num retry
    simp only [run_rounds]
    cases hf : (evaluate_votes cfg (A round_num retry) (B round_num retry) round_num).should_finalize
    · simp only [hf, Bool.false_eq_true, if_false]
      refine List.chain'_cons'.mpr ⟨?_, ih (round_num + 1) _⟩
      intro q hq
      rw [run_rounds_trace_head] at hq
      cases hq
      exact ⟨rfl, rfl⟩
    · simp [hf, finish_round]

/-- When every capability call succeeds, the fallible loop refines the pure
loop. -/
theorem run_roundsE_ok {ε : Type} (cfg : ConsensusConfig)
    (A B : ℤ → Option String → AgentVote)
    (G : ℤ → AgentVote → AgentVote → ReconciliationGuidance) :
    ∀ (fuel : ℕ) (round_num : ℤ) (retry : Option String),
      run_roundsE (ε := ε) cfg (fun r c => .ok (A r c)) (fun r c => .ok (B r c))
          (fun r a b => .ok (G r a b)) fuel round_num retry
        = .ok (run_rounds cfg A B G fuel round_num retry) := by
  intro fuel
  induction fuel with
  | zero =>
    intro round_num retry
    simp [run_roundsE, run_rounds]
  | succ fuel ih =>
    intro round_num retry
    simp only [run_roundsE, run_rounds]
    cases hf : (evaluate_votes cfg (A round_num retry) (B round_num retry) round_num).should_finalize <;>
      simp [hf, ih]

/-- A failing agent-A call aborts the loop with that failure. -/
theorem run_roundsE_voteA_error {ε : Type} (cfg : ConsensusConfig)
    (voteA voteB : ℤ → Option String → Except ε AgentVote)
    (guide : ℤ → AgentVote → AgentVote → Except ε ReconciliationGuidance)
    (fuel : ℕ) (round_num : ℤ) (retry : Option String) (e : ε)
    (h : voteA round_num retry = .error e) :
    run_roundsE cfg voteA voteB guide fuel round_num retry = .error e := by
  cases fuel <;> simp [run_roundsE, h]

/-- A failing agent-B call aborts the loop with that failure. -/
theorem run_roundsE_voteB_error {ε : Type} (cfg : ConsensusConfig)
    (voteA voteB : ℤ → Option String → Except ε AgentVote)
    (guide : ℤ → AgentVote → AgentVote → Except ε ReconciliationGuidance)
    (fuel : ℕ) (round_num : ℤ) (retry : Option String) (va : AgentVote) (e : ε)
    (ha : voteA round_num retry = .ok va) (hb : voteB round_num retry = .error e) :
    run_roundsE cfg voteA voteB guide fuel round_num retry = .error e := by
  cases fuel <;> simp [run_roundsE, ha, hb]

/-- A failing reconciliation call on a non-final round aborts the loop with that
failure. -/
theorem run_roundsE_guide_error {ε : Type} (cfg : ConsensusConfig)
    (voteA voteB : ℤ → Option String → Except ε AgentVote)
    (guide : ℤ → AgentVote → AgentVote → Except ε ReconciliationGuidance)
    (fuel : ℕ) (round_num : ℤ) (retry : Option String) (va vb : AgentVote) (e : ε)
    (ha : voteA round_num retry = .ok va) (hb : voteB round_num retry = .ok vb)
    (hf : (evaluate_votes cfg va vb round_num).should_finalize = false)
    (hg : guide round_num va vb = .error e)
    (hfuel : 0 < fuel) :
    run_roundsE cfg voteA voteB guide fuel round_num retry = .error e := by
  obtain ⟨fuel', rfl⟩ : ∃ n, fuel = n + 1 := ⟨fuel - 1, by omega⟩
  simp [run_roundsE, ha, hb, hf, hg]

/-- The loop ends either by convergence or by hitting the round budget. -/
theorem run_rounds_reached_or_budget (cfg : ConsensusConfig)
    (A B : ℤ → Option String → AgentVote)
    (G : ℤ → AgentVote → AgentVote → ReconciliationGuidance)
    (fuel : ℕ) (round_num : ℤ) (retry : Option String)
    (hfuel : (cfg.max_rounds - round_num).toNat ≤ fuel) :
    (run_rounds cfg A B G fuel round_num retry).consensus_reached = true
      ∨ cfg.max_rounds ≤ (run_rounds cfg A B G fuel round_num retry).rounds_used := by
  cases hcr : (run_rounds cfg A B G fuel round_num retry).consensus_reached
  · exact Or.inr (run_rounds_ge_max_of_not_reached cfg A B G fuel round_num retry hfuel hcr)
  · exact Or.inl rfl

/-- Votes with different labels never reach consensus, whatever the confidences. -/
theorem consensus_not_reached_of_labels_ne (cfg : ConsensusConfig) (a b : AgentVote)
    (round_num : ℤ) (h : a.classification ≠ b.classification) :
    (evaluate_votes cfg a b round_num).consensus_reached = false := by
  simp [evaluate_votes, h]

/-- C1: for every pair of valid votes and every configured threshold, the
evaluation step returns `agreement_score = (voteA.confidence + voteB.confidence)/2`,
`labels_match` true exactly when the labels are equal, and `reached` true exactly
when `labels_match` holds and the agreement score is at least the configured
minimum confidence threshold. -/
theorem evaluate_votes_consensus_spec (cfg : ConsensusConfig) (a b : AgentVote)
    (round_num : ℤ) (ha : a.valid) (hb : b.valid) :
    (evaluate_votes cfg a b round_num).consensus_score = (a.confidence + b.confidence) / 2
    ∧ ((evaluate_votes cfg a b round_num).labels_match = true
        ↔ a.classification = b.classification)
    ∧ ((evaluate_votes cfg a b round_num).consensus_reached = true
        ↔ (evaluate_votes cfg a b round_num).labels_match = true
          ∧ cfg.min_confidence ≤ (evaluate_votes cfg a b round_num).consensus_score) := by
  refine ⟨rfl, by simp [evaluate_votes], ?_⟩
  simp [evaluate_votes]

/-- Witness for C1 at a concrete valid pair of votes. -/
theorem evaluate_votes_consensus_spec_witness :
    vote_w1.valid ∧ vote_w2.valid
    ∧ ((evaluate_votes cfg_w vote_w1 vote_w2 1).consensus_score
          = (vote_w1.confidence + vote_w2.confidence) / 2
      ∧ ((evaluate_votes cfg_w vote_w1 vote_w2 1).labels_match = true
          ↔ vote_w1.classification = vote_w2.classification)
      ∧ ((evaluate_votes cfg_w vote_w1 vote_w2 1).consensus_reached = true
          ↔ (evaluate_votes cfg_w vote_w1 vote_w2 1).labels_match = true
            ∧ cfg_w.min_confidence ≤ (evaluate_votes cfg_w vote_w1 vote_w2 1).consensus_score)) :=
  ⟨by decide, by decide,
    evaluate_votes_consensus_spec cfg_w vote_w1 vote_w2 1 (by decide) (by decide)⟩

/-- C2: after the evaluation step the workflow routes to finalize exactly when
consensus is reached or the round number has reached `max_rounds`, and to
reconcile otherwise; and with `max_rounds = 2` and round-2 votes that still
disagree, the run finalizes with `rounds_used = 2` and no consensus. -/
theorem evaluation_routing_and_budget (cfg : ConsensusConfig) :
    (∀ (s : GraphState),
      (route_after_evaluation (apply_evaluate cfg s) = "finalize"
        ↔ ((evaluate_votes cfg s.agent_a_vote s.agent_b_vote s.round_num).consensus_reached = true
            ∨ cfg.max_rounds ≤ s.round_num))
      ∧ (route_after_evaluation (apply_evaluate cfg s) = "reconcile"
        ↔ ¬ ((evaluate_votes cfg s.agent_a_vote s.agent_b_vote s.round_num).consensus_reached = true
            ∨ cfg.max_rounds ≤ s.round_num)))
    ∧ (∀ (A B : ℤ → Option String → AgentVote)
        (G : ℤ → AgentVote → AgentVote → ReconciliationGuidance),
        cfg.max_rounds = 2 →
        (evaluate_votes cfg (A 1 none) (B 1 none) 1).consensus_reached = false →
        (∀ c, (A 2 c).classification ≠ (B 2 c).classification) →
        (run_workflow cfg A B G 1 none).rounds_used = 2
          ∧ (run_workflow cfg A B G 1 none).consensus_reached = false) := by
  constructor
  · intro s
    have hsf : (apply_evaluate cfg s).should_finalize
        = ((evaluate_votes cfg s.agent_a_vote s.agent_b_vote s.round_num).consensus_reached
            || decide (cfg.max_rounds ≤ s.round_num)) := by
      simp only [apply_evaluate]
      exact should_finalize_iff cfg s.agent_a_vote s.agent_b_vote s.round_num
    constructor
    · rw [route_after_evaluation, hsf]
      cases hcr : (evaluate_votes cfg s.agent_a_vote s.agent_b_vote s.round_num).consensus_reached <;>
        cases hle : decide (cfg.max_rounds ≤ s.round_num) <;>
          simp_all
    · rw [route_after_evaluation, hsf]
      cases hcr : (evaluate_votes cfg s.agent_a_vote s.agent_b_vote s.round_num).consensus_reached <;>
        cases hle : decide (cfg.max_rounds ≤ s.round_num) <;>
          simp_all
  · intro A B G hmax hr1 hr2
    have hf1 : (evaluate_votes cfg (A 1 none) (B 1 none) 1).should_finalize = false := by
      rw [should_finalize_iff, hr1, hmax]
      simp
    have hfuel : (cfg.max_rounds - 1).toNat = 1 := by rw [hmax]; rfl
    have hr2' : (evaluate_votes cfg
        (A 2 (some ((G 1 (A 1 none) (B 1 none)).instructions_for_retry)))
        (B 2 (some ((G 1 (A 1 none) (B 1 none)).instructions_for_retry))) 2).consensus_reached
          = false :=
      consensus_not_reached_of_labels_ne cfg _ _ 2 (hr2 _)
    rw [run_workflow, hfuel]
    simp only [run_rounds, hf1, Bool.false_eq_true, if_false, finish_round]
    exact ⟨rfl, hr2'⟩

/-- Witness for C2 on constant disagreeing oracles with `max_rounds = 2`. -/
theorem evaluation_routing_and_budget_witness :
    (run_workflow cfg_w2 voteA_w voteB_w guide_w 1 none).rounds_used = 2
    ∧ (run_workflow cfg_w2 voteA_w voteB_w guide_w 1 none).consensus_reached = false :=
  (evaluation_routing_and_budget cfg_w2).2 voteA_w voteB_w guide_w rfl rfl
    (fun _ => by simp [voteA_w, voteB_w, vote_w3, vote_w4])

/-- C3: with a valid configuration and successful capability responses,
`classify` terminates with a Decision — the fallible run returns exactly the
pure run's Decision, and the loop ends by convergence or by forced finalization
at the round budget. -/
theorem classify_document_total (ε : Type) (cfg : ConsensusConfig)
    (A B : ℤ → Option String → AgentVote)
    (G : ℤ → AgentVote → AgentVote → ReconciliationGuidance)
    (D : String → String → ℤ → Bool → ℚ → AgentVote → AgentVote → SupervisorDecision)
    (document_id document_name : String) (h : 1 ≤ cfg.max_rounds) :
    classify_documentE (ε := ε) cfg (fun r c => .ok (A r c)) (fun r c => .ok (B r c))
        (fun r a b => .ok (G r a b)) (fun i n ru cr cs va vb => .ok (D i n ru cr cs va vb))
        document_id document_name
      = .ok (classify_document cfg A B G D document_id document_name)
    ∧ ((run_workflow cfg A B G 1 none).consensus_reached = true
        ∨ cfg.max_rounds ≤ (run_workflow cfg A B G 1 none).rounds_used) := by
  constructor
  · simp [classify_documentE, classify_document, run_workflowE, run_workflow,
      run_roundsE_ok]
  · exact run_rounds_reached_or_budget cfg A B G _ 1 none le_rfl

/-- Witness for C3 on concrete oracles. -/
theorem classify_document_total_witness :
    (1 : ℤ) ≤ cfg_w2.max_rounds
    ∧ (classify_documentE (ε := String) cfg_w2 (fun r c => .ok (voteA_w r c))
          (fun r c => .ok (voteB_w r c)) (fun r a b => .ok (guide_w r a b))
          (fun i n ru cr cs va vb => .ok (make_decision i n ru cr cs va vb)) "doc-1" "doc.txt"
        = .ok (classify_document cfg_w2 voteA_w voteB_w guide_w make_decision "doc-1" "doc.txt")
      ∧ ((run_workflow cfg_w2 voteA_w voteB_w guide_w 1 none).consensus_reached = true
          ∨ cfg_w2.max_rounds ≤ (run_workflow cfg_w2 voteA_w voteB_w guide_w 1 none).rounds_used)) :=
  ⟨by decide, classify_document_total String cfg_w2 voteA_w voteB_w guide_w make_decision
    "doc-1" "doc.txt" (by decide)⟩

/-- C4: the `rounds_used` of the terminal Decision (produced through the
repository's deterministic finalization capability, which carries the
workflow's terminal round through) lies in `[1, max_rounds]`. -/
theorem decision_rounds_used_bounds (cfg : ConsensusConfig)
    (A B : ℤ → Option String → AgentVote)
    (G : ℤ → AgentVote → AgentVote → ReconciliationGuidance)
    (document_id document_name : String) (h : 1 ≤ cfg.max_rounds) :
    1 ≤ (classify_document cfg A B G make_decision document_id document_name).rounds_used
    ∧ (classify_document cfg A B G make_decision document_id document_name).rounds_used
        ≤ cfg.max_rounds := by
  have hrw : (classify_document cfg A B G make_decision document_id document_name).rounds_used
      = (run_workflow cfg A B G 1 none).rounds_used := rfl
  constructor
  · rw [hrw, run_workflow]
    have := run_rounds_rounds_used cfg A B G (cfg.max_rounds - 1).toNat 1 none
    omega
  · rw [hrw, run_workflow]
    exact run_rounds_le_max cfg A B G _ 1 none h

/-- Witness for C4 on concrete oracles. -/
theorem decision_rounds_used_bounds_witness :
    (1 : ℤ) ≤ cfg_w2.max_rounds
    ∧ (1 ≤ (classify_document cfg_w2 voteA_w voteB_w guide_w make_decision
          "doc-1" "doc.txt").rounds_used
      ∧ (classify_document cfg_w2 voteA_w voteB_w guide_w make_decision
          "doc-1" "doc.txt").rounds_used ≤ cfg_w2.max_rounds) :=
  ⟨by decide, decision_rounds_used_bounds cfg_w2 voteA_w voteB_w guide_w
    "doc-1" "doc.txt" (by decide)⟩

/-- C5: the reconciliation capability is invoked exactly `rounds_used - 1` times
when consensus is reached and exactly `max_rounds - 1` times when finalization
is forced; in particular it never runs after the final round. -/
theorem reconciliation_invocation_count (cfg : ConsensusConfig)
    (A B : ℤ → Option String → AgentVote)
    (G : ℤ → AgentVote → AgentVote → ReconciliationGuidance)
    (h : 1 ≤ cfg.max_rounds) :
    ((run_workflow cfg A B G 1 none).consensus_reached = true →
      ((run_workflow cfg A B G 1 none).recon_count : ℤ)
        = (run_workflow cfg A B G 1 none).rounds_used - 1)
    ∧ ((run_workflow cfg A B G 1 none).consensus_reached = false →
      ((run_workflow cfg A B G 1 none).recon_count : ℤ) = cfg.max_rounds - 1) := by
  have hused := run_rounds_rounds_used cfg A B G (cfg.max_rounds - 1).toNat 1 none
  constructor
  · intro _
    rw [run_workflow] at *
    omega
  · intro hcr
    have hge := run_rounds_ge_max_of_not_reached cfg A B G (cfg.max_rounds - 1).toNat 1 none
      le_rfl (by rw [run_workflow] at hcr; exact hcr)
    have hle := run_rounds_le_max cfg A B G (cfg.max_rounds - 1).toNat 1 none h
    rw [run_workflow] at *
    omega

/-- Witness for C5 on concrete oracles. -/
theorem reconciliation_invocation_count_witness :
    (1 : ℤ) ≤ cfg_w2.max_rounds
    ∧ (((run_workflow cfg_w2 voteA_w voteB_w guide_w 1 none).consensus_reached = true →
        (((run_workflow cfg_w2 voteA_w voteB_w guide_w 1 none).recon_count : ℤ)
          = (run_workflow cfg_w2 voteA_w voteB_w guide_w 1 none).rounds_used - 1))
      ∧ ((run_workflow cfg_w2 voteA_w voteB_w guide_w 1 none).consensus_reached = false →
        (((run_workflow cfg_w2 voteA_w voteB_w guide_w 1 none).recon_count : ℤ)
          = cfg_w2.max_rounds - 1))) :=
  ⟨by decide, reconciliation_invocation_count cfg_w2 voteA_w voteB_w guide_w (by decide)⟩

/-- C6 counterexample: constructing a classifier from `invalid_config` (whose
`min_confidence` and `max_rounds` both violate the documented ranges) succeeds,
and a classify call runs to a Decision with it — nothing rejects the
configuration at construction. -/
theorem construction_rejects_invalid_counterexample :
    (invalid_config.consensus.min_confidence < 1/2 ∧ invalid_config.consensus.max_rounds < 1)
    ∧ mkDocumentClassifier invalid_config = .ok { config := invalid_config }
    ∧ (classify_document invalid_config.consensus voteA_w voteB_w guide_w make_decision
        "doc-1" "doc.txt").rounds_used = 1 := by
  refine ⟨⟨by norm_num [invalid_config], by decide⟩, rfl, rfl⟩

/-- C6 amended: construction accepts every configuration (no validation), and
the only guard in the repository is the `max(1, ·)` clamp the environment
loader applies to `max_rounds`. -/
theorem construction_accepts_any_config :
    (∀ cfg : AppConfig, mkDocumentClassifier cfg = .ok { config := cfg })
    ∧ (∀ raw : ℤ, 1 ≤ load_max_rounds raw) :=
  ⟨fun _ => rfl, fun raw => le_max_left 1 raw⟩

/-- C7: a failing capability call — either evaluation agent, reconciliation, or
arbitration — aborts the run at once and surfaces that exact failure to the
caller of `classify`; no Decision and no partial result is returned. -/
theorem capability_failure_propagates {ε : Type} (cfg : ConsensusConfig)
    (voteA voteB : ℤ → Option String → Except ε AgentVote)
    (guide : ℤ → AgentVote → AgentVote → Except ε ReconciliationGuidance)
    (finalizeD : String → String → ℤ → Bool → ℚ → AgentVote → AgentVote →
      Except ε SupervisorDecision)
    (document_id document_name : String) :
    (∀ e, voteA 1 none = .error e →
      classify_documentE cfg voteA voteB guide finalizeD document_id document_name = .error e)
    ∧ (∀ va e, voteA 1 none = .ok va → voteB 1 none = .error e →
      classify_documentE cfg voteA voteB guide finalizeD document_id document_name = .error e)
    ∧ (∀ va vb e, voteA 1 none = .ok va → voteB 1 none = .ok vb →
      (evaluate_votes cfg va vb 1).should_finalize = false →
      guide 1 va vb = .error e →
      classify_documentE cfg voteA voteB guide finalizeD document_id document_name = .error e)
    ∧ (∀ r e, run_workflowE cfg voteA voteB guide 1 none = .ok r →
      finalizeD document_id document_name r.rounds_used r.consensus_reached
          r.consensus_score r.vote_a r.vote_b = .error e →
      classify_documentE cfg voteA voteB guide finalizeD document_id document_name = .error e) := by
  refine ⟨?_, ?_, ?_, ?_⟩
  · intro e h
    have hprop := run_roundsE_voteA_error cfg voteA voteB guide
      (cfg.max_rounds - 1).toNat 1 none e h
    simp only [classify_documentE, run_workflowE, hprop]
  · intro va e ha hb
    have hprop := run_roundsE_voteB_error cfg voteA voteB guide
      (cfg.max_rounds - 1).toNat 1 none va e ha hb
    simp only [classify_documentE, run_workflowE, hprop]
  · intro va vb e ha hb hf hg
    have hnot : ¬ (cfg.max_rounds ≤ 1) := by
      rw [should_finalize_iff] at hf
      simp only [Bool.or_eq_false_iff, decide_eq_false_iff_not] at hf
      exact hf.2
    have hprop := run_roundsE_guide_error cfg voteA voteB guide
      (cfg.max_rounds - 1).toNat 1 none va vb e ha hb hf hg (by omega)
    simp only [classify_documentE, run_workflowE, hprop]
  · intro r e hok hfin
    simp only [classify_documentE, hok, hfin]

/-- Witness for C7: each of the four failure points with concrete oracles. -/
theorem capability_failure_propagates_witness :
    classify_documentE cfg_w2 voteA_failE voteB_okE guide_okE finalize_okE
        "doc-1" "doc.txt" = .error "agent A failed"
    ∧ classify_documentE cfg_w2 voteA_okE voteB_failE guide_okE finalize_okE
        "doc-1" "doc.txt" = .error "agent B failed"
    ∧ classify_documentE cfg_w2 voteA_okE voteB_okE guide_failE finalize_okE
        "doc-1" "doc.txt" = .error "reconciliation failed"
    ∧ classify_documentE cfg_w2 voteA_okE voteB_okE guide_okE finalize_failE
        "doc-1" "doc.txt" = .error "arbitration failed" :=
  ⟨(capability_failure_propagates cfg_w2 voteA_failE voteB_okE guide_okE finalize_okE
      "doc-1" "doc.txt").1 "agent A failed" rfl,
   (capability_failure_propagates cfg_w2 voteA_okE voteB_failE guide_okE finalize_okE
      "doc-1" "doc.txt").2.1 vote_w3 "agent B failed" rfl rfl,
   (capability_failure_propagates cfg_w2 voteA_okE voteB_okE guide_failE finalize_okE
      "doc-1" "doc.txt").2.2.1 vote_w3 vote_w4 "reconciliation failed" rfl rfl rfl rfl,
   (capability_failure_propagates cfg_w2 voteA_okE voteB_okE guide_okE finalize_failE
      "doc-1" "doc.txt").2.2.2 (run_workflow cfg_w2 voteA_w voteB_w guide_w 1 none)
      "arbitration failed" (run_roundsE_ok cfg_w2 voteA_w voteB_w guide_w _ 1 none) rfl⟩

/-- C8: the first round's evaluation calls receive no retry guidance, and each
later executed round receives exactly the single guidance produced by the
reconciliation of the immediately preceding round — nothing accumulates and
nothing persists beyond one round. -/
theorem retry_guidance_single_round (cfg : ConsensusConfig)
    (A B : ℤ → Option String → AgentVote)
    (G : ℤ → AgentVote → AgentVote → ReconciliationGuidance) :
    (run_workflow cfg A B G 1 none).trace.head? = some (1, none)
    ∧ List.Chain' (guidance_step A B G) (run_workflow cfg A B G 1 none).trace := by
  exact ⟨run_rounds_trace_head cfg A B G _ 1 none, run_rounds_trace_chain cfg A B G _ 1 none⟩

/-- C9: consensus evaluation is deterministic (the consensus outputs depend only
on the two votes and the configured threshold) and side-effect free (the
`evaluate` node is idempotent on the graph state and writes no channel other
than the three consensus channels). -/
theorem evaluate_votes_pure (cfg : ConsensusConfig) (s t : GraphState) :
    apply_evaluate cfg (apply_evaluate cfg s) = apply_evaluate cfg s
    ∧ ((apply_evaluate cfg s).agent_a_vote = s.agent_a_vote
      ∧ (apply_evaluate cfg s).agent_b_vote = s.agent_b_vote
      ∧ (apply_evaluate cfg s).round_num = s.round_num
      ∧ (apply_evaluate cfg s).retry_context = s.retry_context
      ∧ (apply_evaluate cfg s).document_id = s.document_id
      ∧ (apply_evaluate cfg s).document_name = s.document_name
      ∧ (apply_evaluate cfg s).document_text = s.document_text)
    ∧ (s.agent_a_vote = t.agent_a_vote → s.agent_b_vote = t.agent_b_vote →
        (apply_evaluate cfg s).consensus_score = (apply_evaluate cfg t).consensus_score
        ∧ (apply_evaluate cfg s).consensus_reached = (apply_evaluate cfg t).consensus_reached
        ∧ (evaluate_votes cfg s.agent_a_vote s.agent_b_vote s.round_num).labels_match
            = (evaluate_votes cfg t.agent_a_vote t.agent_b_vote t.round_num).labels_match) := by
  refine ⟨rfl, ⟨rfl, rfl, rfl, rfl, rfl, rfl, rfl⟩, ?_⟩
  intro h1 h2
  exact ⟨by simp [apply_evaluate, evaluate_votes, h1, h2],
    by simp [apply_evaluate, evaluate_votes, h1, h2],
    by simp [evaluate_votes, h1, h2]⟩

/-- Witness for C9 at two concrete states sharing votes. -/
theorem evaluate_votes_pure_witness :
    (state_w1.agent_a_vote = state_w2.agent_a_vote
      ∧ state_w1.agent_b_vote = state_w2.agent_b_vote)
    ∧ ((apply_evaluate cfg_w2 state_w1).consensus_score
          = (apply_evaluate cfg_w2 state_w2).consensus_score
      ∧ (apply_evaluate cfg_w2 state_w1).consensus_reached
          = (apply_evaluate cfg_w2 state_w2).consensus_reached
      ∧ (evaluate_votes cfg_w2 state_w1.agent_a_vote state_w1.agent_b_vote
            state_w1.round_num).labels_match
          = (evaluate_votes cfg_w2 state_w2.agent_a_vote state_w2.agent_b_vote
              state_w2.round_num).labels_match)
    ∧ apply_evaluate cfg_w2 (apply_evaluate cfg_w2 state_w1) = apply_evaluate cfg_w2 state_w1 :=
  ⟨⟨rfl, rfl⟩, (evaluate_votes_pure cfg_w2 state_w1 state_w2).2.2 rfl rfl,
    (evaluate_votes_pure cfg_w2 state_w1 state_w2).1⟩

end RagClassifier
